import Mathlib

/-!
Verification of the telemetry core of `src/src-tauri/src/lib.rs` (a Tauri
desktop utility): memory / disk / process snapshot providers and the remote
status streaming bridge.

Shallow embedding conventions:
* `u32`/`u64` machine integers are modelled as `Nat`; Rust `saturating_sub`
  and the truncating `-` are both `Nat` subtraction (the source only uses
  `saturating_sub` on the subtractions that matter).
* `f64`/`f32` results are modelled as `ℚ` (exact arithmetic); the source's
  floating-point divisions by `1_073_741_824.0` / `1_048_576.0` become exact
  rational divisions.
* OS / library effects (mach calls, `sysinfo` readouts, spawned commands)
  become explicit inputs: each embedded function takes the raw data the
  corresponding call would have produced, with `Option`/`Except` capturing
  failure of the call.
* Rust `std` string helpers (`str::trim`, `str::split`, unsigned `parse`)
  are modelled by structurally recursive char-list functions so that the
  kernel can evaluate them.
-/

set_option autoImplicit false

namespace Organizer

/-! ## Unit conversions (the source's `to_gb` / `to_mb` / `page_to_gb` closures) -/

/-- Model of `|b: u64| b as f64 / 1_073_741_824.0`. -/
def bytesToGB (b : Nat) : ℚ := (b : ℚ) / 1073741824

/-- Model of `|b: u64| b as f64 / 1_048_576.0`. -/
def bytesToMB (b : Nat) : ℚ := (b : ℚ) / 1048576

/-- Model of `|pages: u64| (pages as f64 * page_size as f64) / 1_073_741_824.0`. -/
def pagesToGB (page_size pages : Nat) : ℚ :=
  ((pages : ℚ) * (page_size : ℚ)) / 1073741824

/-! ## Models of the Rust `std` string helpers used by the source -/

/-- Model of Rust `str::split(sep)`: split a char list at every occurrence of
`sep` (keeping empty fragments, like Rust's `split`). -/
def splitChars (sep : Char) : List Char → List (List Char)
  | [] => [[]]
  | c :: rest =>
    let r := splitChars sep rest
    if c = sep then [] :: r
    else
      match r with
      | h :: t => (c :: h) :: t
      | [] => [[c]]

/-- `str::split` lifted to `String`. -/
def splitOnChar (sep : Char) (s : String) : List String :=
  (splitChars sep s.data).map String.mk

/-- Model of Rust `str::trim`: drop whitespace from both ends. -/
def trimChars (l : List Char) : List Char :=
  ((l.dropWhile Char.isWhitespace).reverse.dropWhile Char.isWhitespace).reverse

/-- `str::trim` lifted to `String`. -/
def trimStr (s : String) : String := String.mk (trimChars s.data)

/-- Value of a non-empty all-digit char list, `none` otherwise. -/
def digitsVal : List Char → Option Nat
  | [] => none
  | l => l.foldlM (fun acc c => if c.isDigit then some (acc * 10 + (c.toNat - 48)) else none) 0

/-- Model of Rust unsigned integer `parse`: optional leading `+`, then at
least one digit, nothing else. -/
def parseUnsigned (l : List Char) : Option Nat :=
  match l with
  | '+' :: rest => digitsVal rest
  | _ => digitsVal l

/-- Model of `str::parse::<u64>()`: fails on values outside `u64` range. -/
def parseU64 (s : String) : Option Nat :=
  (parseUnsigned s.data).filter (· < 18446744073709551616)

/-- Model of `str::parse::<u32>()`: fails on values outside `u32` range. -/
def parseU32 (s : String) : Option Nat :=
  (parseUnsigned s.data).filter (· < 4294967296)

/-- Model of `str::strip_prefix(c)` for a single-char pattern. -/
def dropLead (c : Char) (s : String) : Option String :=
  match s.data with
  | c2 :: rest => if c2 = c then some (String.mk rest) else none
  | [] => none

/-- Model of `std::path::Path::file_name` composed with `to_string_lossy`:
the last non-empty `/`-separated component, or `none` when the path is empty,
all separators, or ends (after dropping trailing separators) in `..`. -/
def fileName (s : String) : Option String :=
  match ((splitOnChar '/' s).filter (fun c => c ≠ "")).getLast? with
  | some c => if c = ".." then none else some c
  | none => none

/-! ## Memory snapshot provider (`get_memory_info`, lib.rs lines 90–251) -/

/-- The `natural_t` page counters of the macOS `VmStatistics64` struct read by
`get_memory_info` (the `u64` event counters of the struct are never read by
the source and are omitted). -/
structure VmStatistics64 where
  free_count : Nat
  active_count : Nat
  inactive_count : Nat
  wire_count : Nat
  purgeable_count : Nat
  speculative_count : Nat
  compressor_page_count : Nat
  throttled_count : Nat
  external_page_count : Nat
  internal_page_count : Nat

/-- The `sysinfo` library memory readout (`sys.refresh_memory()` results), in
bytes. -/
structure SysinfoMemory where
  total_memory : Nat
  used_memory : Nat
  available_memory : Nat
  free_memory : Nat
  total_swap : Nat
  used_swap : Nat

/-- The `MemoryInfo` record returned to the frontend (lib.rs lines 75–87). -/
structure MemoryInfo where
  total_gb : ℚ
  used_gb : ℚ
  available_gb : ℚ
  free_gb : ℚ
  app_gb : ℚ
  wired_gb : ℚ
  compressed_gb : ℚ
  cached_gb : ℚ
  swap_total_gb : ℚ
  swap_used_gb : ℚ

/-- `get_memory_info_fallback` (lib.rs lines 203–223): generic `sysinfo` data
with zero-filled category fields, used when the mach call fails. -/
def get_memory_info_fallback (s : SysinfoMemory) : MemoryInfo :=
  let total := s.total_memory
  let used := s.used_memory
  ⟨bytesToGB total,                 -- total_gb
   bytesToGB used,                  -- used_gb
   bytesToGB (total - used),        -- available_gb: total.saturating_sub(used)
   bytesToGB s.free_memory,         -- free_gb
   0, 0, 0, 0,                      -- app_gb, wired_gb, compressed_gb, cached_gb
   bytesToGB s.total_swap, bytesToGB s.used_swap⟩

/-- Environment of one macOS `get_memory_info` call: the `host_statistics64`
result code and counters, the host page size, the `sysctl -n hw.memsize`
probe (`none` when the spawn or the `u64` parse of its output failed — the
source's `.ok()/.and_then(..).unwrap_or(0)` chain), and the `sysinfo` swap /
fallback readout. -/
structure MacMemEnv where
  host_statistics_result : Int
  vm_stat : VmStatistics64
  page_size : Nat
  memsize_output : Option Nat
  sysinfo : SysinfoMemory

/-- macOS `get_memory_info` (lib.rs lines 90–201). -/
def get_memory_info_macos (env : MacMemEnv) : MemoryInfo :=
  if env.host_statistics_result ≠ 0 then
    get_memory_info_fallback env.sysinfo
  else
    let v := env.vm_stat
    let total_bytes := env.memsize_output.getD 0
    let total_gb := bytesToGB total_bytes
    -- free_pages = free_count.saturating_sub(speculative_count)
    let free_pages := v.free_count - v.speculative_count
    -- app_pages = internal_page_count.saturating_sub(purgeable_count)
    let app_pages := v.internal_page_count - v.purgeable_count
    let cached_pages := v.purgeable_count + v.external_page_count
    let free_gb := pagesToGB env.page_size free_pages
    let app_gb := pagesToGB env.page_size app_pages
    let wired_gb := pagesToGB env.page_size v.wire_count
    let compressed_gb := pagesToGB env.page_size v.compressor_page_count
    let cached_gb := pagesToGB env.page_size cached_pages
    -- Used = App + Wired + Compressed
    let used_gb := app_gb + wired_gb + compressed_gb
    -- Available = Free + Inactive
    let available_gb := pagesToGB env.page_size (free_pages + v.inactive_count)
    ⟨total_gb, used_gb, available_gb, free_gb, app_gb, wired_gb, compressed_gb, cached_gb,
     bytesToGB env.sysinfo.total_swap, bytesToGB env.sysinfo.used_swap⟩

/-- Windows/Linux `get_memory_info` (lib.rs lines 226–251). -/
def get_memory_info_generic (s : SysinfoMemory) : MemoryInfo :=
  let total := s.total_memory
  let used := s.used_memory
  let available := s.available_memory
  ⟨bytesToGB total,
   bytesToGB used,
   if available > 0 then bytesToGB available else bytesToGB (total - used),
   bytesToGB s.free_memory,
   0, 0, 0, 0,
   bytesToGB s.total_swap, bytesToGB s.used_swap⟩

/-! ## Disk snapshot provider (`get_disk_space_detailed`, lib.rs lines 731–829) -/

/-- The `DiskSpaceDetailed` record (lib.rs lines 643–650). -/
structure DiskSpaceDetailed where
  total_gb : ℚ
  available_gb : ℚ
  available_with_purgeable_gb : ℚ
  purgeable_gb : ℚ
  used_gb : ℚ

/-- Captured output of the spawned `swift` capacity-query helper. -/
structure SwiftOut where
  success : Bool
  stdoutStr : String
  stderrStr : String

/-- The parsing portion of macOS `get_disk_space_detailed` (lib.rs lines
752–761): trim stdout, split on `|`, require exactly three `u64` fields. -/
def parseCapacityOutput (s : String) : Except String (Nat × Nat × Nat) :=
  match splitOnChar '|' (trimStr s) with
  | [p0, p1, p2] =>
    match parseU64 p0 with
    | none => .error "Failed to parse total"
    | some total_bytes =>
      match parseU64 p1 with
      | none => .error "Failed to parse available"
      | some available_bytes =>
        match parseU64 p2 with
        | none => .error "Failed to parse available for important"
        | some available_with_purgeable_bytes =>
          .ok (total_bytes, available_bytes, available_with_purgeable_bytes)
  | _ => .error ("Invalid swift output: " ++ s)

/-- macOS `get_disk_space_detailed` (lib.rs lines 731–775); the argument is
the result of spawning the `swift` helper (`.error e` when the spawn itself
failed). -/
def get_disk_space_detailed_macos (spawned : Except String SwiftOut) :
    Except String DiskSpaceDetailed :=
  match spawned with
  | .error e => .error ("Failed to run swift: " ++ e)
  | .ok o =>
    if o.success = false then
      .error ("Swift failed: " ++ o.stderrStr)
    else
      match parseCapacityOutput o.stdoutStr with
      | .error e => .error e
      | .ok (total_bytes, available_bytes, available_with_purgeable_bytes) =>
        -- saturating_sub on both derived quantities
        let purgeable_bytes := available_with_purgeable_bytes - available_bytes
        let used_bytes := total_bytes - available_with_purgeable_bytes
        .ok ⟨bytesToGB total_bytes, bytesToGB available_bytes,
             bytesToGB available_with_purgeable_bytes,
             bytesToGB purgeable_bytes, bytesToGB used_bytes⟩

/-- One volume of the `sysinfo::Disks` enumeration. -/
structure DiskVolume where
  mount_point : String
  total_space : Nat
  available_space : Nat

/-- Windows/Linux `get_disk_space_detailed` (lib.rs lines 802–829). -/
def get_disk_space_detailed_generic (disks : List DiskVolume) :
    Except String DiskSpaceDetailed :=
  match (disks.find? (fun d => d.mount_point = "/" || d.mount_point = "C:\\")).orElse
      (fun _ => disks.head?) with
  | none => .error "No disk found"
  | some disk =>
    let total_bytes := disk.total_space
    let available_bytes := disk.available_space
    let used_bytes := total_bytes - available_bytes
    .ok ⟨bytesToGB total_bytes, bytesToGB available_bytes,
         bytesToGB available_bytes,  -- same as available on Windows
         0,                          -- no purgeable concept on Windows
         bytesToGB used_bytes⟩

/-! ## Process snapshot provider (`get_top_processes`, lib.rs lines 254–407) -/

/-- Per-process data of one `sysinfo` enumeration entry, together with the
result of the per-process `proc_pid_rusage` kernel query on the macOS path
(`footprint = none` models a non-zero return code). -/
structure ProcInput where
  pid : Nat
  name : String
  memory : Nat
  virtual_memory : Nat
  footprint : Option Nat
  cwd : Option String

/-- The `ProcessMemory` record returned to the frontend (lib.rs lines 48–55). -/
structure ProcessMemory where
  pid : Nat
  name : String
  cwd : Option String
  memory_mb : ℚ
  virtual_mb : ℚ

/-- The per-process map closure of macOS `get_top_processes` (lib.rs lines
314–333): physical footprint when `proc_pid_rusage` succeeded, else the
`sysinfo` resident memory; `cwd` is filled later via `lsof`. -/
def procEntryMac (inp : ProcInput) : ProcessMemory :=
  let footprint := inp.footprint.getD inp.memory
  ⟨inp.pid, inp.name, none, bytesToMB footprint, bytesToMB inp.virtual_memory⟩

/-- The per-process map closure of the generic `get_top_processes` (lib.rs
lines 387–398): `sysinfo` resident memory, cwd last segment from the library. -/
def procEntryGeneric (inp : ProcInput) : ProcessMemory :=
  ⟨inp.pid, inp.name, inp.cwd.bind fileName, bytesToMB inp.memory, bytesToMB inp.virtual_memory⟩

/-- `processes.sort_by(|a, b| b.memory_mb.partial_cmp(&a.memory_mb)
.unwrap_or(Equal))`: Rust's stable `sort_by` with a descending-memory
comparator, modelled by the stable `List.mergeSort` (on `ℚ` the
`partial_cmp ... unwrap_or(Equal)` comparator is the total descending order). -/
def sortByMemoryDesc (l : List ProcessMemory) : List ProcessMemory :=
  l.mergeSort (fun a b => decide (b.memory_mb ≤ a.memory_mb))

/-- Captured output of a spawned command whose stdout the source walks line
by line. -/
structure CmdOutput where
  success : Bool
  stdoutLines : List String

/-- Set `cwd` on the first process with the given pid
(`processes.iter_mut().find(|p| p.pid == pid)` followed by the assignment). -/
def updateCwdFirst (pid : Nat) (c : Option String) : List ProcessMemory → List ProcessMemory
  | [] => []
  | p :: rest =>
    if p.pid = pid then { p with cwd := c } :: rest
    else p :: updateCwdFirst pid c rest

/-- The `lsof -Fn` output walk of macOS `get_top_processes` (lib.rs lines
351–365): a `p`-line re-binds the current pid (to `none` on a failed `u32`
parse), an `n`-line stores the last path segment on the current pid's entry. -/
def applyLsofLines : List String → Option Nat → List ProcessMemory → List ProcessMemory
  | [], _, procs => procs
  | line :: rest, current_pid, procs =>
    match dropLead 'p' line with
    | some pid_str => applyLsofLines rest (parseU32 pid_str) procs
    | none =>
      match dropLead 'n' line with
      | some name =>
        match current_pid with
        | some pid => applyLsofLines rest current_pid (updateCwdFirst pid (fileName name) procs)
        | none => applyLsofLines rest current_pid procs
      | none => applyLsofLines rest current_pid procs

/-- macOS `get_top_processes` (lib.rs lines 254–371); `lsofOut = none` models
a spawn error of `lsof`. -/
def get_top_processes_macos (limit : Nat) (inputs : List ProcInput)
    (lsofOut : Option CmdOutput) : List ProcessMemory :=
  let processes := inputs.map procEntryMac
  let processes := sortByMemoryDesc processes
  let processes := processes.take limit
  if processes.isEmpty then processes
  else
    match lsofOut with
    | some o => if o.success then applyLsofLines o.stdoutLines none processes else processes
    | none => processes

/-- Windows/Linux `get_top_processes` (lib.rs lines 374–407). -/
def get_top_processes_generic (limit : Nat) (inputs : List ProcInput) : List ProcessMemory :=
  ((sortByMemoryDesc (inputs.map procEntryGeneric))).take limit

/-! ## Per-process detail (`get_process_details`, lib.rs lines 410–641) -/

/-- The `sysinfo::ProcessStatus` values distinguished by the source's match;
`other` stands for every remaining library state. -/
inductive SysProcessStatus where
  | Run
  | Sleep
  | Stop
  | Zombie
  | Idle
  | other (s : String)

/-- The status match of `get_process_details` (lib.rs lines 524–531 and
611–618). -/
def statusString : SysProcessStatus → String
  | .Run => "Running"
  | .Sleep => "Sleeping"
  | .Stop => "Stopped"
  | .Zombie => "Zombie"
  | .Idle => "Idle"
  | .other _ => "Unknown"

/-- The `ProcessDetails` record returned to the frontend (lib.rs lines 57–73). -/
structure ProcessDetails where
  pid : Nat
  name : String
  status : String
  user : Option String
  parent_pid : Option Nat
  exe_path : Option String
  cwd : Option String
  cmd_args : List String
  start_time : Option Nat
  cpu_usage : ℚ
  memory_mb : ℚ
  virtual_mb : ℚ
  disk_read_bytes : Nat
  disk_write_bytes : Nat

/-- The fields of the `RUsageInfoV4` readout used by the source. -/
structure RUsageResult where
  ri_phys_footprint : Nat
  ri_diskio_bytesread : Nat
  ri_diskio_byteswritten : Nat

/-- Captured output of a spawned command read as one stdout string. -/
structure PsOutput where
  success : Bool
  stdoutStr : String

/-- The `sysinfo` process record consulted by macOS `get_process_details`. -/
structure ProcRecordMac where
  name : String
  status : SysProcessStatus
  parent : Option Nat
  exe : Option String
  cwd : Option String
  cmd : List String
  start_time : Nat
  memory : Nat
  virtual_memory : Nat

/-- Environment of one macOS `get_process_details` call: the library record
(`none` when the pid does not exist), the `proc_pid_rusage` query, the
`ps -o user=` probe, the `lsof -d cwd` probe, and the `ps -o %cpu=` probe
(`none` models the respective spawn failure). -/
structure DetailEnvMac where
  process : Option ProcRecordMac
  rusage : Option RUsageResult
  ps_user : Option PsOutput
  lsof_cwd : Option CmdOutput
  ps_cpu : Option String

/-- `get_cpu_via_ps` (lib.rs lines 555–570); `parseF32` models
`str::parse::<f32>()`, `output = none` models the spawn `Err` branch. -/
def get_cpu_via_ps (parseF32 : String → Option ℚ) (output : Option String) : ℚ :=
  match output with
  | some stdout => (parseF32 (trimStr stdout)).getD 0
  | none => 0

/-- macOS `get_process_details` (lib.rs lines 410–552). -/
def get_process_details_macos (parseF32 : String → Option ℚ) (pid : Nat)
    (env : DetailEnvMac) : Except String ProcessDetails :=
  match env.process with
  | none => .error ("Process " ++ toString pid ++ " not found")
  | some process =>
    -- phys_footprint and disk I/O via proc_pid_rusage, sysinfo fallback
    let mdd := match env.rusage with
      | some r => (bytesToMB r.ri_phys_footprint, r.ri_diskio_bytesread, r.ri_diskio_byteswritten)
      | none => (bytesToMB process.memory, 0, 0)
    -- user via `ps -o user=`: success, trimmed, empty means none
    let user := env.ps_user.bind fun o =>
      if o.success then
        let s := trimStr o.stdoutStr
        if s = "" then none else some s
      else none
    -- full cwd via `lsof -Fn` first n-line, falling back to the sysinfo cwd
    let cwd := (env.lsof_cwd.bind fun o =>
      if o.success then o.stdoutLines.findSome? (dropLead 'n') else none).orElse
      (fun _ => process.cwd)
    .ok ⟨pid, process.name, statusString process.status, user, process.parent,
         process.exe, cwd, process.cmd, some process.start_time,
         get_cpu_via_ps parseF32 env.ps_cpu, mdd.1, bytesToMB process.virtual_memory,
         mdd.2.1, mdd.2.2⟩

/-- The `sysinfo` process record consulted by the generic
`get_process_details`, as of the second refresh (the call takes two samples
100 ms apart; `cpu_usage` is the library's delta at the second sample). -/
structure ProcRecordGeneric where
  name : String
  status : SysProcessStatus
  parent : Option Nat
  exe : Option String
  cwd : Option String
  cmd : List String
  start_time : Nat
  cpu_usage : ℚ
  memory : Nat
  virtual_memory : Nat
  disk_read_bytes : Nat
  disk_written_bytes : Nat

/-- Windows/Linux `get_process_details` (lib.rs lines 573–641). -/
def get_process_details_generic (pid : Nat) (process? : Option ProcRecordGeneric) :
    Except String ProcessDetails :=
  match process? with
  | none => .error ("Process " ++ toString pid ++ " not found")
  | some process =>
    .ok ⟨pid, process.name, statusString process.status, none, process.parent,
         process.exe, process.cwd, process.cmd, some process.start_time,
         process.cpu_usage, bytesToMB process.memory, bytesToMB process.virtual_memory,
         process.disk_read_bytes, process.disk_written_bytes⟩

/-! ## Remote status streaming bridge (`stream_server_status`, lib.rs lines 659–706) -/

/-- JSON values, modelling `serde_json::Value`. -/
inductive Json where
  | null
  | bool (b : Bool)
  | num (q : ℚ)
  | str (s : String)
  | arr (xs : List Json)
  | obj (fields : List (String × Json))

/-- `serde_json::Value::get(key)`: field lookup on objects, `none` elsewhere. -/
def Json.getField : Json → String → Option Json
  | .obj fields, key => (fields.find? (fun kv => kv.1 = key)).map (·.2)
  | _, _ => none

/-- `serde_json::Value::as_str()`. -/
def Json.asStr : Json → Option String
  | .str s => some s
  | _ => none

/-- The `ServerStatusStep` event payload (lib.rs lines 653–657). -/
structure ServerStatusStep where
  step : String
  data : Option Json

/-- One result of the `reader.lines()` iterator: a line, or an I/O error. -/
inductive ReadEvent where
  | line (s : String)
  | readError (e : String)

/-- Result of spawning the ssh subprocess and taking its stdout handle. -/
inductive LaunchResult where
  | spawnFailed (e : String)
  | captureFailed
  | ok

/-- The per-line event construction (lib.rs lines 691–702): `step` defaults
to `"unknown"` when the field is absent or not a string, `data` is the raw
field value. -/
def stepOfJson (j : Json) : ServerStatusStep :=
  ⟨((j.getField "step").bind Json.asStr).getD "unknown", j.getField "data"⟩

/-- The reader loop of `stream_server_status` (lib.rs lines 681–703),
parameterized by the `serde_json::from_str` parser: returns the events
emitted (in order) and the call's outcome. -/
def processLines (parse : String → Except String Json) :
    List ReadEvent → List ServerStatusStep × Except String Unit
  | [] => ([], .ok ())
  | .readError e :: _ => ([], .error ("Read error: " ++ e))
  | .line s :: rest =>
    if s = "" then processLines parse rest
    else
      match parse s with
      | .error e => ([], .error ("JSON parse error: " ++ e ++ " for line: " ++ s))
      | .ok j =>
        let r := processLines parse rest
        (stepOfJson j :: r.1, r.2)

/-- Events emitted by one `stream_server_status` call together with its
return value. -/
structure StreamOutcome where
  events : List ServerStatusStep
  result : Except String Unit

/-- `stream_server_status` (lib.rs lines 659–706): the synthetic `connecting`
event is emitted before the subprocess is spawned, then the reader loop runs
over the stdout lines. -/
def stream_server_status (parse : String → Except String Json)
    (launch : LaunchResult) (input : List ReadEvent) : StreamOutcome :=
  let connecting : ServerStatusStep := ⟨"connecting", none⟩
  match launch with
  | .spawnFailed e => ⟨[connecting], .error ("Failed to spawn SSH: " ++ e)⟩
  | .captureFailed => ⟨[connecting], .error "Failed to capture stdout"⟩
  | .ok =>
    let r := processLines parse input
    ⟨connecting :: r.1, r.2⟩

/-! ## Arithmetic helper lemmas -/

lemma bytesToGB_zero : bytesToGB 0 = 0 := by simp [bytesToGB]

lemma bytesToGB_nonneg (a : Nat) : 0 ≤ bytesToGB a := by
  unfold bytesToGB
  positivity

lemma bytesToGB_mono {a b : Nat} (h : a ≤ b) : bytesToGB a ≤ bytesToGB b := by
  unfold bytesToGB
  apply div_le_div_of_nonneg_right _ (by norm_num)
  exact_mod_cast h

lemma pagesToGB_mono (ps : Nat) {a b : Nat} (h : a ≤ b) :
    pagesToGB ps a ≤ pagesToGB ps b := by
  unfold pagesToGB
  apply div_le_div_of_nonneg_right _ (by norm_num)
  have : (a : ℚ) ≤ (b : ℚ) := by exact_mod_cast h
  exact mul_le_mul_of_nonneg_right this (by positivity)

/-- `Nat` (saturating) subtraction cast to `ℚ` is the zero-floored difference. -/
lemma natCast_sub_max (a b : Nat) : ((a - b : Nat) : ℚ) = max ((a : ℚ) - (b : ℚ)) 0 := by
  rcases le_total b a with h | h
  · rw [Nat.cast_sub h]
    exact (max_eq_left (sub_nonneg.mpr (by exact_mod_cast h))).symm
  · rw [Nat.sub_eq_zero_of_le h, Nat.cast_zero]
    exact (max_eq_right (sub_nonpos.mpr (by exact_mod_cast h))).symm

/-- `bytesToGB` of a saturating subtraction is the zero-floored difference of
the converted quantities. -/
lemma bytesToGB_natSub (a b : Nat) :
    bytesToGB (a - b) = max 0 (bytesToGB a - bytesToGB b) := by
  unfold bytesToGB
  rw [natCast_sub_max]
  rcases le_total ((b : ℚ)) ((a : ℚ)) with h | h
  · rw [max_eq_left (sub_nonneg.mpr h), sub_div,
      max_eq_right (sub_nonneg.mpr (div_le_div_of_nonneg_right h (by norm_num)))]
  · rw [max_eq_right (sub_nonpos.mpr h), zero_div,
      max_eq_left (sub_nonpos.mpr (div_le_div_of_nonneg_right h (by norm_num)))]

/-! ## C1: native memory category algorithm and zero-filled fallback -/

/-- C1: on the native (macOS) memory path `get_memory_info` computes the
snapshot by the specified category algorithm — `free_pages = free_count -
speculative_count` floored at 0, `app_pages = internal_page_count -
purgeable_count` floored at 0, `cached_pages = purgeable_count +
external_page_count`, `used_gb = app_gb + wired_gb + compressed_gb`,
`available = free_pages + inactive_count`, every page count converted via
`bytes = pages * page_size` and `gb = bytes / 1_073_741_824`; and when the
native call fails, the fallback zero-fills `app_gb`, `wired_gb`,
`compressed_gb`, `cached_gb`. -/
theorem c1_memory_native_algorithm :
    (∀ env : MacMemEnv, env.host_statistics_result = 0 →
      (get_memory_info_macos env).free_gb =
        max ((env.vm_stat.free_count : ℚ) - env.vm_stat.speculative_count) 0 *
          env.page_size / 1073741824 ∧
      (get_memory_info_macos env).app_gb =
        max ((env.vm_stat.internal_page_count : ℚ) - env.vm_stat.purgeable_count) 0 *
          env.page_size / 1073741824 ∧
      (get_memory_info_macos env).cached_gb =
        ((env.vm_stat.purgeable_count : ℚ) + env.vm_stat.external_page_count) *
          env.page_size / 1073741824 ∧
      (get_memory_info_macos env).wired_gb =
        (env.vm_stat.wire_count : ℚ) * env.page_size / 1073741824 ∧
      (get_memory_info_macos env).compressed_gb =
        (env.vm_stat.compressor_page_count : ℚ) * env.page_size / 1073741824 ∧
      (get_memory_info_macos env).used_gb =
        (get_memory_info_macos env).app_gb + (get_memory_info_macos env).wired_gb +
          (get_memory_info_macos env).compressed_gb ∧
      (get_memory_info_macos env).available_gb =
        (get_memory_info_macos env).free_gb +
          (env.vm_stat.inactive_count : ℚ) * env.page_size / 1073741824) ∧
    (∀ env : MacMemEnv, env.host_statistics_result ≠ 0 →
      get_memory_info_macos env = get_memory_info_fallback env.sysinfo) ∧
    (∀ s : SysinfoMemory,
      (get_memory_info_fallback s).app_gb = 0 ∧
      (get_memory_info_fallback s).wired_gb = 0 ∧
      (get_memory_info_fallback s).compressed_gb = 0 ∧
      (get_memory_info_fallback s).cached_gb = 0) := by
  refine ⟨?_, ?_, ?_⟩
  · intro env h
    have hc : ¬env.host_statistics_result ≠ 0 := by simp [h]
    refine ⟨?_, ?_, ?_, ?_, ?_, ?_, ?_⟩ <;>
      simp only [get_memory_info_macos, if_neg hc, pagesToGB] <;>
      first
        | (rw [natCast_sub_max]; done)
        | (rw [Nat.cast_add, add_mul, add_div]; done)
        | rfl
  · intro env h
    simp only [get_memory_info_macos, if_pos h]
  · intro s
    exact ⟨rfl, rfl, rfl, rfl⟩

/-- C1 witness: the theorem applied to a concrete environment (native result
code 0, counters 10/0/7/3/2/4/5/0/6/9, page size 4096) and to a concrete
failing environment. -/
theorem c1_memory_native_algorithm_witness :
    ((0 : Int) = 0 ∧
      (get_memory_info_macos ⟨0, ⟨10, 0, 7, 3, 2, 4, 5, 0, 6, 9⟩, 4096, some 8589934592,
        ⟨1, 2, 3, 4, 5, 6⟩⟩).free_gb = max ((10 : ℚ) - 4) 0 * 4096 / 1073741824 ∧
      (get_memory_info_macos ⟨0, ⟨10, 0, 7, 3, 2, 4, 5, 0, 6, 9⟩, 4096, some 8589934592,
        ⟨1, 2, 3, 4, 5, 6⟩⟩).app_gb = max ((9 : ℚ) - 2) 0 * 4096 / 1073741824 ∧
      (get_memory_info_macos ⟨0, ⟨10, 0, 7, 3, 2, 4, 5, 0, 6, 9⟩, 4096, some 8589934592,
        ⟨1, 2, 3, 4, 5, 6⟩⟩).cached_gb = ((2 : ℚ) + 6) * 4096 / 1073741824 ∧
      (get_memory_info_macos ⟨0, ⟨10, 0, 7, 3, 2, 4, 5, 0, 6, 9⟩, 4096, some 8589934592,
        ⟨1, 2, 3, 4, 5, 6⟩⟩).wired_gb = (3 : ℚ) * 4096 / 1073741824 ∧
      (get_memory_info_macos ⟨0, ⟨10, 0, 7, 3, 2, 4, 5, 0, 6, 9⟩, 4096, some 8589934592,
        ⟨1, 2, 3, 4, 5, 6⟩⟩).compressed_gb = (5 : ℚ) * 4096 / 1073741824 ∧
      (get_memory_info_macos ⟨0, ⟨10, 0, 7, 3, 2, 4, 5, 0, 6, 9⟩, 4096, some 8589934592,
        ⟨1, 2, 3, 4, 5, 6⟩⟩).used_gb =
        (get_memory_info_macos ⟨0, ⟨10, 0, 7, 3, 2, 4, 5, 0, 6, 9⟩, 4096, some 8589934592,
          ⟨1, 2, 3, 4, 5, 6⟩⟩).app_gb +
        (get_memory_info_macos ⟨0, ⟨10, 0, 7, 3, 2, 4, 5, 0, 6, 9⟩, 4096, some 8589934592,
          ⟨1, 2, 3, 4, 5, 6⟩⟩).wired_gb +
        (get_memory_info_macos ⟨0, ⟨10, 0, 7, 3, 2, 4, 5, 0, 6, 9⟩, 4096, some 8589934592,
          ⟨1, 2, 3, 4, 5, 6⟩⟩).compressed_gb ∧
      (get_memory_info_macos ⟨0, ⟨10, 0, 7, 3, 2, 4, 5, 0, 6, 9⟩, 4096, some 8589934592,
        ⟨1, 2, 3, 4, 5, 6⟩⟩).available_gb =
        (get_memory_info_macos ⟨0, ⟨10, 0, 7, 3, 2, 4, 5, 0, 6, 9⟩, 4096, some 8589934592,
          ⟨1, 2, 3, 4, 5, 6⟩⟩).free_gb + (7 : ℚ) * 4096 / 1073741824) ∧
    ((1 : Int) ≠ 0 ∧
      get_memory_info_macos ⟨1, ⟨10, 0, 7, 3, 2, 4, 5, 0, 6, 9⟩, 4096, some 8589934592,
        ⟨1, 2, 3, 4, 5, 6⟩⟩ = get_memory_info_fallback ⟨1, 2, 3, 4, 5, 6⟩) :=
  ⟨⟨rfl, by exact_mod_cast c1_memory_native_algorithm.1 ⟨0, ⟨10, 0, 7, 3, 2, 4, 5, 0, 6, 9⟩,
      4096, some 8589934592, ⟨1, 2, 3, 4, 5, 6⟩⟩ rfl⟩,
   ⟨by decide, c1_memory_native_algorithm.2.1 ⟨1, ⟨10, 0, 7, 3, 2, 4, 5, 0, 6, 9⟩, 4096,
      some 8589934592, ⟨1, 2, 3, 4, 5, 6⟩⟩ (by decide)⟩⟩

/-! ## C10: sysctl probe failure zero-fills only total_gb -/

/-- C10: on the native macOS memory path, if the `sysctl hw.memsize` probe
fails to spawn or parse, `get_memory_info` returns `total_gb = 0` while all
other fields are still computed from the kernel counters (the full native
record, not the fallback), so the result can have `used_gb > total_gb`; the
probe failure does not trigger the generic fallback and the function still
returns a plain snapshot (no error path exists in its type). -/
theorem c10_memsize_probe_failure :
    (∀ env : MacMemEnv, env.host_statistics_result = 0 → env.memsize_output = none →
      get_memory_info_macos env =
        ⟨0,
         pagesToGB env.page_size (env.vm_stat.internal_page_count - env.vm_stat.purgeable_count) +
           pagesToGB env.page_size env.vm_stat.wire_count +
           pagesToGB env.page_size env.vm_stat.compressor_page_count,
         pagesToGB env.page_size
           ((env.vm_stat.free_count - env.vm_stat.speculative_count) + env.vm_stat.inactive_count),
         pagesToGB env.page_size (env.vm_stat.free_count - env.vm_stat.speculative_count),
         pagesToGB env.page_size (env.vm_stat.internal_page_count - env.vm_stat.purgeable_count),
         pagesToGB env.page_size env.vm_stat.wire_count,
         pagesToGB env.page_size env.vm_stat.compressor_page_count,
         pagesToGB env.page_size (env.vm_stat.purgeable_count + env.vm_stat.external_page_count),
         bytesToGB env.sysinfo.total_swap,
         bytesToGB env.sysinfo.used_swap⟩) ∧
    ((get_memory_info_macos ⟨0, ⟨0, 0, 0, 1, 0, 0, 0, 0, 0, 0⟩, 4096, none,
        ⟨0, 0, 0, 0, 0, 0⟩⟩).total_gb <
      (get_memory_info_macos ⟨0, ⟨0, 0, 0, 1, 0, 0, 0, 0, 0, 0⟩, 4096, none,
        ⟨0, 0, 0, 0, 0, 0⟩⟩).used_gb) := by
  constructor
  · intro env h hm
    have hc : ¬env.host_statistics_result ≠ 0 := by simp [h]
    simp only [get_memory_info_macos, if_neg hc, hm, Option.getD_none, bytesToGB_zero]
  · simp only [get_memory_info_macos, pagesToGB, bytesToGB]
    norm_num

/-- C10 witness: the theorem applied to a concrete environment with a failed
memsize probe. -/
theorem c10_memsize_probe_failure_witness :
    ((0 : Int) = 0 ∧ (none : Option Nat) = none ∧
      get_memory_info_macos ⟨0, ⟨10, 0, 7, 3, 2, 4, 5, 0, 6, 9⟩, 4096, none, ⟨1, 2, 3, 4, 5, 6⟩⟩ =
        ⟨0, pagesToGB 4096 7 + pagesToGB 4096 3 + pagesToGB 4096 5, pagesToGB 4096 13,
         pagesToGB 4096 6, pagesToGB 4096 7, pagesToGB 4096 3, pagesToGB 4096 5,
         pagesToGB 4096 8, bytesToGB 5, bytesToGB 6⟩) := by
  refine ⟨rfl, rfl, ?_⟩
  exact c10_memsize_probe_failure.1
    ⟨0, ⟨10, 0, 7, 3, 2, 4, 5, 0, 6, 9⟩, 4096, none, ⟨1, 2, 3, 4, 5, 6⟩⟩ rfl rfl

/-! ## C8: available_gb >= free_gb (corrected) -/

/-- C8 counterexample: on the native-failure fallback path the claim
`available_gb >= free_gb` is false at a concrete library readout — the
library reports total = used = 1 GiB and free = 1 GiB, so the code derives
`available_gb = to_gb(total - used) = 0 < free_gb`. -/
theorem c8_counterexample :
    (get_memory_info_macos ⟨1, ⟨0, 0, 0, 0, 0, 0, 0, 0, 0, 0⟩, 4096, none,
      ⟨1073741824, 1073741824, 0, 1073741824, 0, 0⟩⟩).available_gb <
    (get_memory_info_macos ⟨1, ⟨0, 0, 0, 0, 0, 0, 0, 0, 0, 0⟩, 4096, none,
      ⟨1073741824, 1073741824, 0, 1073741824, 0, 0⟩⟩).free_gb := by
  simp only [get_memory_info_macos, get_memory_info_fallback, bytesToGB]
  norm_num

/-- C8 (amended): `available_gb >= free_gb` holds unconditionally on the
native path; on the native-failure fallback path it holds whenever the
library's free figure does not exceed the derived available figure
`total - used`, and on the generic path whenever the library's free figure
does not exceed the reported (or derived) available figure — the code does
not enforce either bound on the library readout. -/
theorem c8_available_ge_free_amended :
    (∀ env : MacMemEnv, env.host_statistics_result = 0 →
      (get_memory_info_macos env).free_gb ≤ (get_memory_info_macos env).available_gb) ∧
    (∀ env : MacMemEnv, env.host_statistics_result ≠ 0 →
      env.sysinfo.free_memory ≤ env.sysinfo.total_memory - env.sysinfo.used_memory →
      (get_memory_info_macos env).free_gb ≤ (get_memory_info_macos env).available_gb) ∧
    (∀ s : SysinfoMemory,
      s.free_memory ≤
        (if s.available_memory > 0 then s.available_memory else s.total_memory - s.used_memory) →
      (get_memory_info_generic s).free_gb ≤ (get_memory_info_generic s).available_gb) := by
  refine ⟨?_, ?_, ?_⟩
  · intro env h
    have hc : ¬env.host_statistics_result ≠ 0 := by simp [h]
    simp only [get_memory_info_macos, if_neg hc]
    exact pagesToGB_mono env.page_size (Nat.le_add_right _ _)
  · intro env h hfree
    simp only [get_memory_info_macos, if_pos h, get_memory_info_fallback]
    exact bytesToGB_mono hfree
  · intro s hfree
    simp only [get_memory_info_generic]
    by_cases hav : s.available_memory > 0
    · rw [if_pos hav]
      rw [if_pos hav] at hfree
      exact bytesToGB_mono hfree
    · rw [if_neg hav]
      rw [if_neg hav] at hfree
      exact bytesToGB_mono hfree

/-- C8 witness: the amended theorem applied on all three paths at concrete
inputs satisfying the hypotheses. -/
theorem c8_available_ge_free_amended_witness :
    ((0 : Int) = 0 ∧
      (get_memory_info_macos ⟨0, ⟨10, 0, 7, 3, 2, 4, 5, 0, 6, 9⟩, 4096, some 8589934592,
        ⟨1, 2, 3, 4, 5, 6⟩⟩).free_gb ≤
      (get_memory_info_macos ⟨0, ⟨10, 0, 7, 3, 2, 4, 5, 0, 6, 9⟩, 4096, some 8589934592,
        ⟨1, 2, 3, 4, 5, 6⟩⟩).available_gb) ∧
    ((1 : Int) ≠ 0 ∧ (2 : Nat) ≤ 10 - 3 ∧
      (get_memory_info_macos ⟨1, ⟨0, 0, 0, 0, 0, 0, 0, 0, 0, 0⟩, 4096, none,
        ⟨10, 3, 0, 2, 0, 0⟩⟩).free_gb ≤
      (get_memory_info_macos ⟨1, ⟨0, 0, 0, 0, 0, 0, 0, 0, 0, 0⟩, 4096, none,
        ⟨10, 3, 0, 2, 0, 0⟩⟩).available_gb) ∧
    ((2 : Nat) ≤ (if (5 : Nat) > 0 then (5 : Nat) else 10 - 3) ∧
      (get_memory_info_generic ⟨10, 3, 5, 2, 0, 0⟩).free_gb ≤
      (get_memory_info_generic ⟨10, 3, 5, 2, 0, 0⟩).available_gb) :=
  ⟨⟨rfl, c8_available_ge_free_amended.1 ⟨0, ⟨10, 0, 7, 3, 2, 4, 5, 0, 6, 9⟩, 4096,
      some 8589934592, ⟨1, 2, 3, 4, 5, 6⟩⟩ rfl⟩,
   ⟨by decide, by decide, c8_available_ge_free_amended.2.1 ⟨1, ⟨0, 0, 0, 0, 0, 0, 0, 0, 0, 0⟩,
      4096, none, ⟨10, 3, 0, 2, 0, 0⟩⟩ (by decide) (by decide)⟩,
   ⟨by decide, c8_available_ge_free_amended.2.2 ⟨10, 3, 5, 2, 0, 0⟩ (by decide)⟩⟩

/-! ## C2: derived disk figures are zero-floored differences -/

/-- C2: for every `DiskSnapshotDetailed` returned by
`get_disk_space_detailed` (macOS and generic paths),
`purgeable_gb = max 0 (available_with_purgeable_gb - available_gb)` and
`used_gb = max 0 (total_gb - available_with_purgeable_gb)` — exactly, since
the code computes both with saturating subtraction in bytes before the
gigabyte conversion. -/
theorem c2_disk_detailed_derived :
    (∀ (spawned : Except String SwiftOut) (d : DiskSpaceDetailed),
      get_disk_space_detailed_macos spawned = .ok d →
      d.purgeable_gb = max 0 (d.available_with_purgeable_gb - d.available_gb) ∧
      d.used_gb = max 0 (d.total_gb - d.available_with_purgeable_gb)) ∧
    (∀ (disks : List DiskVolume) (d : DiskSpaceDetailed),
      get_disk_space_detailed_generic disks = .ok d →
      d.purgeable_gb = max 0 (d.available_with_purgeable_gb - d.available_gb) ∧
      d.used_gb = max 0 (d.total_gb - d.available_with_purgeable_gb)) := by
  constructor
  · intro spawned d h
    match spawned with
    | .error e => simp [get_disk_space_detailed_macos] at h
    | .ok o =>
      simp only [get_disk_space_detailed_macos] at h
      by_cases hs : o.success = false
      · simp [hs] at h
      · rw [if_neg hs] at h
        match hp : parseCapacityOutput o.stdoutStr with
        | .error e => rw [hp] at h; simp at h
        | .ok (t, a, w) =>
          rw [hp] at h
          simp only [Except.ok.injEq] at h
          subst h
          exact ⟨bytesToGB_natSub w a, bytesToGB_natSub t w⟩
  · intro disks d h
    cases hfind : (disks.find? (fun v => v.mount_point = "/" || v.mount_point = "C:\\")).orElse
        (fun _ => disks.head?) with
    | none => simp [get_disk_space_detailed_generic, hfind] at h
    | some disk =>
      simp only [get_disk_space_detailed_generic, hfind, Except.ok.injEq] at h
      subst h
      refine ⟨?_, bytesToGB_natSub disk.total_space disk.available_space⟩
      simp

/-- C2 witness: the theorem applied to a concrete helper output
`"100|50|20"` and to a concrete one-volume disk list. -/
theorem c2_disk_detailed_derived_witness :
    (get_disk_space_detailed_macos (.ok ⟨true, "100|50|20", ""⟩) =
      .ok ⟨bytesToGB 100, bytesToGB 50, bytesToGB 20, bytesToGB 0, bytesToGB 80⟩ ∧
      (bytesToGB 0 = max 0 (bytesToGB 20 - bytesToGB 50) ∧
       bytesToGB 80 = max 0 (bytesToGB 100 - bytesToGB 20))) ∧
    (get_disk_space_detailed_generic [⟨"/", 100, 30⟩] =
      .ok ⟨bytesToGB 100, bytesToGB 30, bytesToGB 30, 0, bytesToGB 70⟩ ∧
      ((0 : ℚ) = max 0 (bytesToGB 30 - bytesToGB 30) ∧
       bytesToGB 70 = max 0 (bytesToGB 100 - bytesToGB 30))) :=
  ⟨⟨rfl, c2_disk_detailed_derived.1 (.ok ⟨true, "100|50|20", ""⟩)
      ⟨bytesToGB 100, bytesToGB 50, bytesToGB 20, bytesToGB 0, bytesToGB 80⟩ rfl⟩,
   ⟨rfl, c2_disk_detailed_derived.2 [⟨"/", 100, 30⟩]
      ⟨bytesToGB 100, bytesToGB 30, bytesToGB 30, 0, bytesToGB 70⟩ rfl⟩⟩

/-! ## C9: disk invariants (corrected) -/

/-- C9 counterexample: `available_with_purgeable_gb >= available_gb` is
false at a concrete capacity-helper output `"100|50|20"` (third field
smaller than second): the code copies both fields directly, giving
`available_with_purgeable_gb = to_gb 20 < to_gb 50 = available_gb`. -/
theorem c9_counterexample :
    get_disk_space_detailed_macos (.ok ⟨true, "100|50|20", ""⟩) =
      .ok ⟨bytesToGB 100, bytesToGB 50, bytesToGB 20, bytesToGB 0, bytesToGB 80⟩ ∧
    bytesToGB 20 < bytesToGB 50 := by
  refine ⟨rfl, ?_⟩
  rw [bytesToGB, bytesToGB]
  norm_num

/-- C9 (amended): for every `DiskSnapshotDetailed` returned by
`get_disk_space_detailed`, `total_gb >= used_gb >= 0` on both paths; on the
generic path the two availability figures are equal, and on the macOS path
`available_with_purgeable_gb >= available_gb` holds whenever the
capacity-query helper's third field is at least its second field (the code
takes both directly from the helper without enforcing the inequality). -/
theorem c9_disk_invariants_amended :
    (∀ (spawned : Except String SwiftOut) (d : DiskSpaceDetailed),
      get_disk_space_detailed_macos spawned = .ok d →
      0 ≤ d.used_gb ∧ d.used_gb ≤ d.total_gb) ∧
    (∀ (disks : List DiskVolume) (d : DiskSpaceDetailed),
      get_disk_space_detailed_generic disks = .ok d →
      (0 ≤ d.used_gb ∧ d.used_gb ≤ d.total_gb) ∧
      d.available_with_purgeable_gb = d.available_gb) ∧
    (∀ (o : SwiftOut) (t a w : Nat) (d : DiskSpaceDetailed),
      parseCapacityOutput o.stdoutStr = .ok (t, a, w) → a ≤ w →
      get_disk_space_detailed_macos (.ok o) = .ok d →
      d.available_gb ≤ d.available_with_purgeable_gb) := by
  refine ⟨?_, ?_, ?_⟩
  · intro spawned d h
    match spawned with
    | .error e => simp [get_disk_space_detailed_macos] at h
    | .ok o =>
      simp only [get_disk_space_detailed_macos] at h
      by_cases hs : o.success = false
      · simp [hs] at h
      · rw [if_neg hs] at h
        match hp : parseCapacityOutput o.stdoutStr with
        | .error e => rw [hp] at h; simp at h
        | .ok (t, a, w) =>
          rw [hp] at h
          simp only [Except.ok.injEq] at h
          subst h
          exact ⟨bytesToGB_nonneg _, bytesToGB_mono (Nat.sub_le t w)⟩
  · intro disks d h
    cases hfind : (disks.find? (fun v => v.mount_point = "/" || v.mount_point = "C:\\")).orElse
        (fun _ => disks.head?) with
    | none => simp [get_disk_space_detailed_generic, hfind] at h
    | some disk =>
      simp only [get_disk_space_detailed_generic, hfind, Except.ok.injEq] at h
      subst h
      exact ⟨⟨bytesToGB_nonneg _, bytesToGB_mono (Nat.sub_le _ _)⟩, rfl⟩
  · intro o t a w d hp haw h
    simp only [get_disk_space_detailed_macos] at h
    by_cases hs : o.success = false
    · simp [hs] at h
    · rw [if_neg hs, hp] at h
      simp only [Except.ok.injEq] at h
      subst h
      exact bytesToGB_mono haw

/-- C9 witness: the amended theorem applied at the concrete helper output
`"100|50|120"` (third field largest) and a concrete one-volume disk list. -/
theorem c9_disk_invariants_amended_witness :
    ((0 : ℚ) ≤ bytesToGB 80 ∧ bytesToGB 80 ≤ bytesToGB 100) ∧
    (((0 : ℚ) ≤ bytesToGB 70 ∧ bytesToGB 70 ≤ bytesToGB 100) ∧ bytesToGB 30 = bytesToGB 30) ∧
    (parseCapacityOutput "100|50|120" = .ok (100, 50, 120) ∧ (50 : Nat) ≤ 120 ∧
      bytesToGB 50 ≤ bytesToGB 120) := by
  refine ⟨?_, ⟨?_, rfl⟩, rfl, by decide, ?_⟩
  · exact c9_disk_invariants_amended.1 (.ok ⟨true, "100|50|20", ""⟩)
      ⟨bytesToGB 100, bytesToGB 50, bytesToGB 20, bytesToGB 0, bytesToGB 80⟩ rfl
  · exact (c9_disk_invariants_amended.2.1 [⟨"/", 100, 30⟩]
      ⟨bytesToGB 100, bytesToGB 30, bytesToGB 30, 0, bytesToGB 70⟩ rfl).1
  · exact c9_disk_invariants_amended.2.2 ⟨true, "100|50|120", ""⟩ 100 50 120
      ⟨bytesToGB 100, bytesToGB 50, bytesToGB 120, bytesToGB 70, bytesToGB 0⟩
      rfl (by decide) rfl

/-! ## C6: not-found error and the six-string status vocabulary -/

/-- C6: `get_process_details(pid)` for a nonexistent pid returns an error
naming the pid; for an existing pid it succeeds and the returned `status` is
always one of the six strings Running, Sleeping, Stopped, Zombie, Idle,
Unknown (every unrecognized library state maps to Unknown) — on both the
macOS and the generic path. -/
theorem c6_details_notfound_and_status :
    (∀ (parseF32 : String → Option ℚ) (pid : Nat) (env : DetailEnvMac),
      env.process = none →
      get_process_details_macos parseF32 pid env =
        .error ("Process " ++ toString pid ++ " not found")) ∧
    (∀ (parseF32 : String → Option ℚ) (pid : Nat) (env : DetailEnvMac) (p : ProcRecordMac),
      env.process = some p →
      ∃ d, get_process_details_macos parseF32 pid env = .ok d ∧
        d.status ∈ ["Running", "Sleeping", "Stopped", "Zombie", "Idle", "Unknown"]) ∧
    (∀ pid : Nat,
      get_process_details_generic pid none =
        .error ("Process " ++ toString pid ++ " not found")) ∧
    (∀ (pid : Nat) (p : ProcRecordGeneric),
      ∃ d, get_process_details_generic pid (some p) = .ok d ∧
        d.status ∈ ["Running", "Sleeping", "Stopped", "Zombie", "Idle", "Unknown"]) ∧
    (∀ s : String, statusString (.other s) = "Unknown") := by
  refine ⟨?_, ?_, ?_, ?_, fun s => rfl⟩
  · intro parseF32 pid env h
    simp only [get_process_details_macos, h]
  · intro parseF32 pid env p h
    obtain ⟨proc, rus, pu, lc, pc⟩ := env
    cases h
    refine ⟨_, rfl, ?_⟩
    cases p.status <;> simp [statusString]
  · intro pid
    rfl
  · intro pid p
    refine ⟨_, rfl, ?_⟩
    cases p.status <;> simp [statusString]

/-- C6 witness: the theorem applied at pid 42 with an absent process, and at
a concrete existing process in an unrecognized library state. -/
theorem c6_details_notfound_and_status_witness :
    ((some (⟨"demo", .other "UninterruptibleDiskSleep", none, none, none, [], 0, 0, 0⟩ :
        ProcRecordMac) = none → False) ∧
      get_process_details_macos (fun _ => none) 42 ⟨none, none, none, none, none⟩ =
        .error ("Process " ++ toString 42 ++ " not found") ∧
      (∃ d, get_process_details_macos (fun _ => none) 7
          ⟨some ⟨"demo", .other "UninterruptibleDiskSleep", none, none, none, [], 0, 0, 0⟩,
           none, none, none, none⟩ = .ok d ∧
        d.status ∈ ["Running", "Sleeping", "Stopped", "Zombie", "Idle", "Unknown"])) ∧
    (get_process_details_generic 42 none = .error ("Process " ++ toString 42 ++ " not found") ∧
      (∃ d, get_process_details_generic 7
          (some ⟨"demo", .Zombie, none, none, none, [], 0, 0, 0, 0, 0, 0⟩) = .ok d ∧
        d.status ∈ ["Running", "Sleeping", "Stopped", "Zombie", "Idle", "Unknown"])) :=
  ⟨⟨fun h => by simp at h,
    c6_details_notfound_and_status.1 (fun _ => none) 42 ⟨none, none, none, none, none⟩ rfl,
    c6_details_notfound_and_status.2.1 (fun _ => none) 7
      ⟨some ⟨"demo", .other "UninterruptibleDiskSleep", none, none, none, [], 0, 0, 0⟩,
       none, none, none, none⟩ _ rfl⟩,
   ⟨c6_details_notfound_and_status.2.2.1 42,
    c6_details_notfound_and_status.2.2.2.1 7 ⟨"demo", .Zombie, none, none, none, [], 0, 0, 0, 0, 0, 0⟩⟩⟩

/-! ## C7: probe failures degrade fields, never the call -/

/-- C7: in `get_process_details` and `get_top_processes`, failure of any
external probe or native per-field query never fails the overall call: for
any probe outcomes the detail call on an existing pid succeeds; with every
probe failed the fields degrade exactly to `user = none`, `cwd =` the
library value, `cpu_usage = 0`, memory from the library figure,
disk I/O `= 0`; the cpu probe degrades to 0 on spawn failure and on
unparseable output; and on the listing path a failed per-process
`proc_pid_rusage` falls back to the library memory figure for that process
without dropping any process from the enumeration. -/
theorem c7_probe_failure_degrades :
    (∀ (parseF32 : String → Option ℚ) (pid : Nat) (p : ProcRecordMac)
        (rusage : Option RUsageResult) (ps_user : Option PsOutput)
        (lsof_cwd : Option CmdOutput) (ps_cpu : Option String),
      ∃ d, get_process_details_macos parseF32 pid
        ⟨some p, rusage, ps_user, lsof_cwd, ps_cpu⟩ = .ok d) ∧
    (∀ (parseF32 : String → Option ℚ) (pid : Nat) (p : ProcRecordMac),
      get_process_details_macos parseF32 pid ⟨some p, none, none, none, none⟩ =
        .ok ⟨pid, p.name, statusString p.status, none, p.parent, p.exe, p.cwd, p.cmd,
             some p.start_time, 0, bytesToMB p.memory, bytesToMB p.virtual_memory, 0, 0⟩) ∧
    (∀ parseF32 : String → Option ℚ, get_cpu_via_ps parseF32 none = 0) ∧
    (∀ (parseF32 : String → Option ℚ) (s : String),
      parseF32 (trimStr s) = none → get_cpu_via_ps parseF32 (some s) = 0) ∧
    (∀ inp : ProcInput, inp.footprint = none →
      (procEntryMac inp).memory_mb = bytesToMB inp.memory) ∧
    (∀ inputs : List ProcInput, (inputs.map procEntryMac).length = inputs.length) := by
  refine ⟨?_, ?_, fun _ => rfl, ?_, ?_, fun inputs => inputs.length_map _⟩
  · intro parseF32 pid p rusage ps_user lsof_cwd ps_cpu
    exact ⟨_, rfl⟩
  · intro parseF32 pid p
    simp only [get_process_details_macos, get_cpu_via_ps, Option.bind_none]
    rfl
  · intro parseF32 s h
    simp only [get_cpu_via_ps, h, Option.getD_none]
  · intro inp h
    simp only [procEntryMac, h, Option.getD_none]

/-- C7 witness: the theorem applied at a concrete process record with every
probe failed, a parser that rejects everything, and a concrete input list. -/
theorem c7_probe_failure_degrades_witness :
    (∃ d, get_process_details_macos (fun _ => none) 7
        ⟨some ⟨"demo", .Run, some 1, some "/bin/demo", some "/home", ["demo"], 100, 2097152, 4194304⟩,
         none, none, none, none⟩ = .ok d) ∧
    (get_process_details_macos (fun _ => none) 7
        ⟨some ⟨"demo", .Run, some 1, some "/bin/demo", some "/home", ["demo"], 100, 2097152, 4194304⟩,
         none, none, none, none⟩ =
      .ok ⟨7, "demo", statusString .Run, none, some 1, some "/bin/demo", some "/home", ["demo"],
           some 100, 0, bytesToMB 2097152, bytesToMB 4194304, 0, 0⟩) ∧
    get_cpu_via_ps (fun _ => none) none = 0 ∧
    ((fun (_ : String) => (none : Option ℚ)) (trimStr " 3.5 ") = none ∧
      get_cpu_via_ps (fun _ => none) (some " 3.5 ") = 0) ∧
    ((⟨9, "x", 2097152, 0, none, none⟩ : ProcInput).footprint = none ∧
      (procEntryMac ⟨9, "x", 2097152, 0, none, none⟩).memory_mb = bytesToMB 2097152) ∧
    ([(⟨9, "x", 2097152, 0, none, none⟩ : ProcInput)].map procEntryMac).length =
      [(⟨9, "x", 2097152, 0, none, none⟩ : ProcInput)].length :=
  ⟨c7_probe_failure_degrades.1 (fun _ => none) 7
      ⟨"demo", .Run, some 1, some "/bin/demo", some "/home", ["demo"], 100, 2097152, 4194304⟩
      none none none none,
   c7_probe_failure_degrades.2.1 (fun _ => none) 7
      ⟨"demo", .Run, some 1, some "/bin/demo", some "/home", ["demo"], 100, 2097152, 4194304⟩,
   c7_probe_failure_degrades.2.2.1 (fun _ => none),
   ⟨rfl, c7_probe_failure_degrades.2.2.2.1 (fun _ => none) " 3.5 " rfl⟩,
   ⟨rfl, c7_probe_failure_degrades.2.2.2.2.1 ⟨9, "x", 2097152, 0, none, none⟩ rfl⟩,
   c7_probe_failure_degrades.2.2.2.2.2 [⟨9, "x", 2097152, 0, none, none⟩]⟩

/-! ## C3: top-N listing length and ordering -/

lemma sortByMemoryDesc_length (l : List ProcessMemory) :
    (sortByMemoryDesc l).length = l.length :=
  List.length_mergeSort l

lemma sortByMemoryDesc_pairwise (l : List ProcessMemory) :
    (sortByMemoryDesc l).Pairwise (fun a b => b.memory_mb ≤ a.memory_mb) := by
  have h := @List.sorted_mergeSort ProcessMemory
    (fun (a b : ProcessMemory) => decide (b.memory_mb ≤ a.memory_mb))
    (fun a b c hab hbc => by
      simp only [decide_eq_true_eq] at *
      exact le_trans hbc hab)
    (fun a b => by
      simp only [Bool.or_eq_true, decide_eq_true_eq]
      exact le_total b.memory_mb a.memory_mb)
    l
  exact h.imp (fun hab => by simpa using hab)

lemma updateCwdFirst_memMap (pid : Nat) (c : Option String) (l : List ProcessMemory) :
    (updateCwdFirst pid c l).map (fun p => p.memory_mb) = l.map (fun p => p.memory_mb) := by
  induction l with
  | nil => rfl
  | cons p rest ih =>
    simp only [updateCwdFirst]
    by_cases h : p.pid = pid
    · rw [if_pos h]
      rfl
    · rw [if_neg h]
      simp [ih]

lemma applyLsofLines_memMap (lines : List String) :
    ∀ (cur : Option Nat) (l : List ProcessMemory),
      (applyLsofLines lines cur l).map (fun p => p.memory_mb) = l.map (fun p => p.memory_mb) := by
  induction lines with
  | nil => intro cur l; rfl
  | cons line rest ih =>
    intro cur l
    simp only [applyLsofLines]
    cases hp : dropLead 'p' line with
    | some pid_str => exact ih _ _
    | none =>
      cases hn : dropLead 'n' line with
      | some name =>
        cases cur with
        | some pid => rw [ih _ _, updateCwdFirst_memMap]
        | none => exact ih _ _
      | none => exact ih _ _

lemma applyLsofLines_length (lines : List String) (cur : Option Nat) (l : List ProcessMemory) :
    (applyLsofLines lines cur l).length = l.length := by
  have h := congrArg List.length (applyLsofLines_memMap lines cur l)
  simpa using h

lemma applyLsofLines_pairwise (lines : List String) (cur : Option Nat) (l : List ProcessMemory)
    (h : l.Pairwise (fun a b => b.memory_mb ≤ a.memory_mb)) :
    (applyLsofLines lines cur l).Pairwise (fun a b => b.memory_mb ≤ a.memory_mb) := by
  have hmap : (applyLsofLines lines cur l).map (fun p => p.memory_mb) =
      l.map (fun p => p.memory_mb) := applyLsofLines_memMap lines cur l
  have h1 : (l.map (fun p => p.memory_mb)).Pairwise (fun a b => b ≤ a) :=
    List.pairwise_map.mpr h
  have h2 : ((applyLsofLines lines cur l).map (fun p => p.memory_mb)).Pairwise
      (fun a b => b ≤ a) := by rw [hmap]; exact h1
  exact List.pairwise_map.mp h2

/-- C3: for every non-negative limit N, `get_top_processes(N)` (both paths)
returns a sequence of length `min(N, number of enumerated processes)`,
sorted by `memory_mb` non-increasing; in particular `get_top_processes(0)`
returns the empty sequence. -/
theorem c3_top_processes :
    (∀ (limit : Nat) (inputs : List ProcInput) (lsofOut : Option CmdOutput),
      (get_top_processes_macos limit inputs lsofOut).length = min limit inputs.length ∧
      (get_top_processes_macos limit inputs lsofOut).Pairwise
        (fun a b => b.memory_mb ≤ a.memory_mb)) ∧
    (∀ (limit : Nat) (inputs : List ProcInput),
      (get_top_processes_generic limit inputs).length = min limit inputs.length ∧
      (get_top_processes_generic limit inputs).Pairwise
        (fun a b => b.memory_mb ≤ a.memory_mb)) ∧
    (∀ (inputs : List ProcInput) (lsofOut : Option CmdOutput),
      get_top_processes_macos 0 inputs lsofOut = []) ∧
    (∀ inputs : List ProcInput, get_top_processes_generic 0 inputs = []) := by
  have htake_len : ∀ (limit : Nat) (l : List ProcInput),
      ((sortByMemoryDesc (l.map procEntryMac)).take limit).length = min limit l.length := by
    intro limit l
    rw [List.length_take, sortByMemoryDesc_length, List.length_map]
  have htake_pw : ∀ (limit : Nat) (l : List ProcessMemory),
      ((sortByMemoryDesc l).take limit).Pairwise (fun a b => b.memory_mb ≤ a.memory_mb) :=
    fun limit l => (sortByMemoryDesc_pairwise l).sublist (List.take_sublist limit _)
  refine ⟨?_, ?_, ?_, ?_⟩
  · intro limit inputs lsofOut
    simp only [get_top_processes_macos]
    by_cases he : ((sortByMemoryDesc (inputs.map procEntryMac)).take limit).isEmpty
    · rw [if_pos he]
      exact ⟨htake_len limit inputs, htake_pw limit _⟩
    · rw [if_neg he]
      match lsofOut with
      | some o =>
        dsimp only
        by_cases hs : o.success
        · rw [if_pos hs]
          rw [applyLsofLines_length]
          exact ⟨htake_len limit inputs,
            applyLsofLines_pairwise _ _ _ (htake_pw limit _)⟩
        · rw [if_neg hs]
          exact ⟨htake_len limit inputs, htake_pw limit _⟩
      | none => exact ⟨htake_len limit inputs, htake_pw limit _⟩
  · intro limit inputs
    simp only [get_top_processes_generic]
    constructor
    · rw [List.length_take, sortByMemoryDesc_length, List.length_map]
    · exact htake_pw limit _
  · intro inputs lsofOut
    simp [get_top_processes_macos]
  · intro inputs
    simp [get_top_processes_generic]

/-! ## C4 / C5: streaming bridge event order and abort behavior -/

/-- The reader loop on a prefix of well-formed lines followed by anything:
the events of the prefix are emitted in order, one per non-blank line, and
the tail is processed afterwards. -/
lemma processLines_ok_append (parse : String → Except String Json) (pre : List String)
    (tail : List ReadEvent) (h : ∀ s ∈ pre, s ≠ "" → (parse s).isOk = true) :
    processLines parse (pre.map ReadEvent.line ++ tail) =
      ((pre.filterMap fun s => if s = "" then none else (parse s).toOption.map stepOfJson) ++
        (processLines parse tail).1,
       (processLines parse tail).2) := by
  induction pre with
  | nil => simp [processLines]
  | cons s pre ih =>
    have hs := h s (List.mem_cons_self s pre)
    have hpre : ∀ x ∈ pre, x ≠ "" → (parse x).isOk = true :=
      fun x hx => h x (List.mem_cons_of_mem s hx)
    by_cases hblank : s = ""
    · subst hblank
      simp only [List.map_cons, List.cons_append, processLines, if_pos rfl,
        List.filterMap_cons]
      simpa using ih hpre
    · match hp : parse s with
      | .error e =>
        rw [hp] at hs
        simp at hs
        exact absurd (hs hblank) (by simp [Except.isOk, Except.toBool])
      | .ok j =>
        have hsome : (if s = "" then none
            else ((parse s).toOption.map stepOfJson)) = some (stepOfJson j) := by
          rw [if_neg hblank, hp]
          rfl
        simp only [List.map_cons, List.cons_append, processLines, if_neg hblank, hp,
          List.append_eq]
        rw [ih hpre, List.filterMap_cons, hsome]
        rfl

/-- C4: the streaming bridge emits a synthetic `connecting` event (no data)
before the remote process is spawned (it is emitted even when the spawn
fails), then processes the stdout lines in order: a blank line produces no
event, and each non-blank parseable line produces exactly one event whose
`step` is the line's `step` string field (the literal `"unknown"` if absent
or not a string) and whose `data` is the line's `data` value (absent when
the line has none), in emission order, and the call returns success. -/
theorem c4_stream_events_in_order :
    (∀ (parse : String → Except String Json) (lines : List String),
      (∀ s ∈ lines, s ≠ "" → (parse s).isOk = true) →
      stream_server_status parse .ok (lines.map ReadEvent.line) =
        ⟨⟨"connecting", none⟩ ::
          (lines.filterMap fun s => if s = "" then none else (parse s).toOption.map
            (fun j => ⟨((j.getField "step").bind Json.asStr).getD "unknown",
                       j.getField "data"⟩)),
         .ok ()⟩) ∧
    (∀ (parse : String → Except String Json) (e : String) (input : List ReadEvent),
      (stream_server_status parse (.spawnFailed e) input).events = [⟨"connecting", none⟩]) := by
  constructor
  · intro parse lines h
    have hApp := processLines_ok_append parse lines [] h
    simp only [List.append_nil, processLines] at hApp
    simp only [stream_server_status, hApp]
    rfl
  · intro parse e input
    rfl

/-- C4 witness: the theorem applied to a concrete parser and the line
sequence `["a", "", "b"]`, where `"a"` parses to an object with `step` and
`data` fields and `"b"` parses to an object with no `step` field. -/
theorem c4_stream_events_in_order_witness :
    ((∀ s ∈ ["a", "", "b"], s ≠ "" →
      ((fun t => if t = "a" then Except.ok (Json.obj [("step", Json.str "scan"), ("data", Json.num 1)])
        else if t = "b" then Except.ok (Json.obj [("other", Json.bool true)])
        else Except.error "bad") s).isOk = true) ∧
    stream_server_status
        (fun t => if t = "a" then Except.ok (Json.obj [("step", Json.str "scan"), ("data", Json.num 1)])
          else if t = "b" then Except.ok (Json.obj [("other", Json.bool true)])
          else Except.error "bad")
        .ok (["a", "", "b"].map ReadEvent.line) =
      ⟨⟨"connecting", none⟩ ::
        (["a", "", "b"].filterMap fun s => if s = "" then none else
          ((fun t => if t = "a" then Except.ok (Json.obj [("step", Json.str "scan"), ("data", Json.num 1)])
            else if t = "b" then Except.ok (Json.obj [("other", Json.bool true)])
            else Except.error "bad") s).toOption.map
            (fun j => ⟨((j.getField "step").bind Json.asStr).getD "unknown", j.getField "data"⟩)),
       .ok ()⟩) ∧
    (stream_server_status (fun _ => Except.error "bad") (.spawnFailed "boom") []).events =
      [⟨"connecting", none⟩] :=
  ⟨⟨by decide, c4_stream_events_in_order.1
      (fun t => if t = "a" then Except.ok (Json.obj [("step", Json.str "scan"), ("data", Json.num 1)])
        else if t = "b" then Except.ok (Json.obj [("other", Json.bool true)])
        else Except.error "bad")
      ["a", "", "b"] (by decide)⟩,
   c4_stream_events_in_order.2 (fun _ => Except.error "bad") "boom" []⟩

/-- C5: a non-blank line that fails to parse aborts the whole call with an
error naming the offending line content and the parse cause, with the events
already emitted for earlier lines preserved; a read error mid-stream
likewise aborts with the underlying cause, preserving earlier events. -/
theorem c5_stream_abort_on_bad_line :
    (∀ (parse : String → Except String Json) (pre : List String) (bad e : String)
        (rest : List ReadEvent),
      (∀ s ∈ pre, s ≠ "" → (parse s).isOk = true) → bad ≠ "" → parse bad = .error e →
      stream_server_status parse .ok
          (pre.map ReadEvent.line ++ ReadEvent.line bad :: rest) =
        ⟨⟨"connecting", none⟩ ::
          (pre.filterMap fun s => if s = "" then none else (parse s).toOption.map stepOfJson),
         .error ("JSON parse error: " ++ e ++ " for line: " ++ bad)⟩) ∧
    (∀ (parse : String → Except String Json) (pre : List String) (e : String)
        (rest : List ReadEvent),
      (∀ s ∈ pre, s ≠ "" → (parse s).isOk = true) →
      stream_server_status parse .ok
          (pre.map ReadEvent.line ++ ReadEvent.readError e :: rest) =
        ⟨⟨"connecting", none⟩ ::
          (pre.filterMap fun s => if s = "" then none else (parse s).toOption.map stepOfJson),
         .error ("Read error: " ++ e)⟩) := by
  constructor
  · intro parse pre bad e rest h hbad hparse
    have hApp := processLines_ok_append parse pre (ReadEvent.line bad :: rest) h
    simp only [stream_server_status, hApp, processLines, if_neg hbad, hparse]
    simp
  · intro parse pre e rest h
    have hApp := processLines_ok_append parse pre (ReadEvent.readError e :: rest) h
    simp only [stream_server_status, hApp, processLines]
    simp

/-- C5 witness: the theorem applied to a concrete parser, the valid prefix
`["a"]`, the unparseable line `"zz"`, and a read error after the same
prefix. -/
theorem c5_stream_abort_on_bad_line_witness :
    ((∀ s ∈ ["a"], s ≠ "" →
        ((fun t => if t = "a" then Except.ok (Json.obj [("step", Json.str "scan")])
          else Except.error "expected value") s).isOk = true) ∧
      ("zz" : String) ≠ "" ∧
      (fun t => if t = "a" then Except.ok (Json.obj [("step", Json.str "scan")])
        else Except.error "expected value") "zz" = Except.error "expected value" ∧
      stream_server_status
          (fun t => if t = "a" then Except.ok (Json.obj [("step", Json.str "scan")])
            else Except.error "expected value")
          .ok (["a"].map ReadEvent.line ++ ReadEvent.line "zz" :: []) =
        ⟨⟨"connecting", none⟩ ::
          (["a"].filterMap fun s => if s = "" then none else
            ((fun t => if t = "a" then Except.ok (Json.obj [("step", Json.str "scan")])
              else Except.error "expected value") s).toOption.map stepOfJson),
         .error ("JSON parse error: " ++ "expected value" ++ " for line: " ++ "zz")⟩) ∧
    (stream_server_status
        (fun t => if t = "a" then Except.ok (Json.obj [("step", Json.str "scan")])
          else Except.error "expected value")
        .ok (["a"].map ReadEvent.line ++ ReadEvent.readError "broken pipe" :: []) =
      ⟨⟨"connecting", none⟩ ::
        (["a"].filterMap fun s => if s = "" then none else
          ((fun t => if t = "a" then Except.ok (Json.obj [("step", Json.str "scan")])
            else Except.error "expected value") s).toOption.map stepOfJson),
       .error ("Read error: " ++ "broken pipe")⟩) :=
  ⟨⟨by decide, by decide, rfl,
    c5_stream_abort_on_bad_line.1
      (fun t => if t = "a" then Except.ok (Json.obj [("step", Json.str "scan")])
        else Except.error "expected value")
      ["a"] "zz" "expected value" [] (by decide) (by decide) rfl⟩,
   c5_stream_abort_on_bad_line.2
      (fun t => if t = "a" then Except.ok (Json.obj [("step", Json.str "scan")])
        else Except.error "expected value")
      ["a"] "broken pipe" [] (by decide)⟩

end Organizer
